import Mathlib

/-
Verification of the home-automation central unit (shutter controller).

The development shallowly embeds the decision engine (`_get_day_time`,
`_automatic_shutters`), the environment sanity check
(`_check_luminosity_and_temp`), the serial request/response primitive
(`ArduinoSerial.ask`) and the actuation path (`_close_shutters_if_opened`)
from CentralUnit.py and ArduinoSerial.py.  Machine times, temperatures and
luminosities are modelled as rationals; peer responses are modelled as the
optional line returned by `read_line` (none when no CR-LF terminated line
arrived before the timeout).
-/

namespace VoletRoulant

/-- Shutter state: the constants SHUTTERS_OPENED and SHUTTERS_CLOSED of
CentralUnit. -/
inductive ShutterState where
  | opened
  | closed
deriving DecidableEq, Repr

/-- Day moment: the constants PLAIN_DAY and PLAIN_NIGHT of CentralUnit. -/
inductive DayMoment where
  | plainDay
  | plainNight
deriving DecidableEq, Repr

/-- Configuration dictionary of CentralUnit (the fields read by the decision
engine; user_mode and time_check are not consulted by it). -/
structure Config where
  sunrise_hour : Nat
  sunset_hour : Nat
  low_light_threshold : Int
  low_temp_threshold : Int
  high_temp_threshold : Int
  adapt_with_env_in_plain_day : Bool
deriving DecidableEq, Repr

/-- Embedding of CentralUnit._get_day_time (CentralUnit.py lines 441-487).
The Python function falls through with an implicit `return None` when no
branch fires, so the result is an `Option DayMoment`. -/
def get_day_time (cfg : Config) (shutters_state : ShutterState)
    (hour : Nat) (lum : ℚ) : Option DayMoment :=
  if hour > cfg.sunset_hour ∨ hour < cfg.sunrise_hour then
    some DayMoment.plainNight
  else if cfg.sunset_hour > hour ∧ hour > cfg.sunrise_hour then
    some DayMoment.plainDay
  else if hour = cfg.sunrise_hour then
    if lum ≤ (cfg.low_light_threshold : ℚ) ∧ shutters_state = ShutterState.closed
    then some DayMoment.plainNight
    else some DayMoment.plainDay
  else if hour = cfg.sunset_hour then
    if ¬ lum ≤ (cfg.low_light_threshold : ℚ) ∧ shutters_state = ShutterState.opened
    then some DayMoment.plainDay
    else some DayMoment.plainNight
  else
    none

/-- Embedding of CentralUnit._automatic_shutters (CentralUnit.py lines
393-439) as the target state it drives the shutters to: `closed` when the
close branch (_close_shutters_if_opened) is taken, `opened` when the open
branch (_open_shutters_if_closed) is taken.  `last_closed` is the value the
hysteresis test reads, `now` is time.time(), `daylight` is time.daylight,
`hour` is time.localtime().tm_hour. -/
def automatic_shutters (cfg : Config) (shutters_state : ShutterState)
    (last_closed now : ℚ) (daylight : Nat) (hour : Nat) (temp lum : ℚ) :
    ShutterState :=
  let day_moment := get_day_time cfg shutters_state hour lum
  if day_moment = some DayMoment.plainNight
     ∨ (cfg.adapt_with_env_in_plain_day = true ∧
        ((temp < (cfg.low_temp_threshold : ℚ) ∧ lum < (cfg.low_light_threshold : ℚ))
         ∨ (temp > (cfg.high_temp_threshold : ℚ) ∧
            |(hour : ℤ) - (13 + (daylight : ℤ))| ≤ 4)))
     ∨ last_closed > now - 3600
  then ShutterState.closed
  else ShutterState.opened

/-- Embedding of CentralUnit._check_luminosity_and_temp (CentralUnit.py
lines 374-391) after the two peer fields have been parsed to numbers:
`Except.error` models a raised ValueError with the given message. -/
def check_luminosity_and_temp (temp lum : ℚ) : Except String (ℚ × ℚ) :=
  if -40 ≤ temp ∧ temp ≤ 60 then
    Except.error "Arduino returned an invalid temperature."
  else if lum < 0 then
    Except.error "Arduino returned an invalid luminosity."
  else
    Except.ok (temp, lum)

/-- Kind of Python exception raised by the embedded code. -/
inductive ExcKind where
  | connectionError
  | valueError
  | timeoutError
deriving DecidableEq, Repr

/-- Result of a call to ArduinoSerial.ask: a normal return of the field
list, a normal (implicit) return of None, a normal return of a
NotImplementedError INSTANCE (the source returns the exception object
instead of raising it), or a raised exception. -/
inductive AskResult where
  | retFields (fields : List String)
  | retNone
  | retNotImplemented (msg : String)
  | raised (k : ExcKind) (msg : String)
deriving DecidableEq, Repr

/-- Helper for py_split: walks the character list, cutting at each
separator occurrence. -/
def py_split_aux (sep : Char) : List Char → List Char → List (List Char)
  | [], acc => [acc.reverse]
  | c :: rest, acc =>
      if c = sep then acc.reverse :: py_split_aux sep rest []
      else py_split_aux sep rest (c :: acc)

/-- Python str.split with a single-character separator (the source only
splits on ";"): splits at every occurrence, keeping empty fields, and
returns the one-element list of the whole string when the separator does
not occur. -/
def py_split (s : String) (sep : Char) : List String :=
  (py_split_aux sep s.data []).map String.mk

/-- Embedding of ArduinoSerial.ask (ArduinoSerial.py lines 115-138).
`compatible_with_AS` is the flag set from programmed_for_as at
construction; `ans` is the value read_line returned (none when no
CR-LF-terminated line arrived within the timeout).  The second component
collects everything written to the transport by the call (send writes
msg + line_ending). -/
def ask (compatible_with_AS : Bool) (msg : String) (data_num_expected : Nat)
    (line_ending : String) (ans : Option String) : AskResult × List String :=
  if compatible_with_AS = false then
    (AskResult.retNotImplemented
       "Arduino isn\x27t compatible with AS\x27s special methods.", [])
  else
    let writes := [msg ++ line_ending]
    match ans with
    | some a =>
        let info := py_split a ';'
        if info.length ≥ 2 ∧ info.headD "" = "ERROR" then
          (AskResult.raised ExcKind.connectionError
             ("Arduino returned error : " ++ info.getD 1 ""), writes)
        else if info.length = data_num_expected then
          (AskResult.retFields info, writes)
        else
          (AskResult.raised ExcKind.valueError
             ("Invalid value received from arduino: " ++ a), writes)
    | none =>
        if data_num_expected > 0 then
          (AskResult.raised ExcKind.timeoutError
             "Arduino didn\x27t return anything in time", writes)
        else
          (AskResult.retNone, writes)

/-- Orchestrator state touched by the actuation paths: the stored shutter
state and the last-closed timestamp read by the hysteresis test. -/
structure CUState where
  shutters_state : ShutterState
  last_closed : ℚ
deriving DecidableEq, Repr

/-- Embedding of CentralUnit._close_shutters_if_opened (CentralUnit.py
lines 489-506).  The actuation is `ask(str(ARDUINO_CLOSE_SHUTTERS),
line_ending="")`, i.e. data_num_expected = 0; `ans` is the peer response
line (none when the peer sent nothing within the timeout); `now` is
time.time().  A raised exception propagates before the state assignments,
so it is returned as `Except.error` with the state unchanged. -/
def close_shutters_if_opened (s : CUState) (ans : Option String) (now : ℚ) :
    Except (ExcKind × String) CUState :=
  if s.shutters_state ≠ ShutterState.closed then
    match (ask true "16" 0 "" ans).1 with
    | AskResult.raised k m => Except.error (k, m)
    | _ => Except.ok { shutters_state := ShutterState.closed, last_closed := now }
  else
    Except.ok s

/-- Keys of the subparser dictionary built at the top of
CentralUnit._init_commands (CentralUnit.py lines 178-186). -/
def init_commands_subparser_keys : List String :=
  ["set_settings", "log_setting", "force_update", "shutdown"]

/-- Key used by every add_argument call that declares the set_settings
options (CentralUnit.py lines 257-292 access subparsers["set_setting"]). -/
def set_settings_option_access_key : String := "set_setting"

/-- Abstract methods declared by CentralUnitCommunicator
(CentralUnitCommunicator.py): a subclass must override all of them to be
instantiable. -/
def communicator_abstract_methods : List String :=
  ["__init__", "__del__", "get_cmds", "log"]

/-- Methods defined by CentralUnitCommunicatorFile
(CentralUnitCommunicatorFile.py). -/
def communicator_file_methods : List String :=
  ["__init__", "__del__", "get_cmd", "get_line_end", "log"]

/-- Command names registered with add_parser in CentralUnit._init_commands
(these become the value of the command dest that parse_command dispatches
on). -/
def registered_command_names : List String :=
  ["set_settings", "get_setting", "force_update", "shutdown"]

/-- Method name computed by CentralUnit.parse_command line 599:
fn_name = "_cmd_" + command. -/
def parse_command_dispatch_name (command : String) : String :=
  "_cmd_" ++ command

/-- Command-handler methods actually defined on CentralUnit
(CentralUnit.py lines 533-571: _cmd_shutdown, _cmd_log_setting,
_cmd_set_settings, _cmd_force_update). -/
def cmd_method_names : List String :=
  ["_cmd_shutdown", "_cmd_log_setting", "_cmd_set_settings", "_cmd_force_update"]

/-- Instance-attribute names created by CentralUnit._init_attributes
(CentralUnit.py lines 96-167).  Each assignment there targets a
double-underscore attribute of the form self.__x, which Python name
mangling stores as _CentralUnit__x. -/
def init_attributes_names : List String :=
  ["_CentralUnit__loop", "_CentralUnit__last_closed",
   "_CentralUnit__shutters_state", "_CentralUnit__argparser",
   "_CentralUnit__config", "_CentralUnit__last_check"]

/-- Attribute name read by the hysteresis test in
CentralUnit._automatic_shutters line 434: self._last_closed (single
leading underscore, not name-mangled). -/
def automatic_shutters_last_closed_read : String := "_last_closed"

/-- Attribute name written by CentralUnit._close_shutters_if_opened line
502: self._last_closed (single leading underscore, not name-mangled). -/
def close_shutters_last_closed_write : String := "_last_closed"

/-- C1: if the last-closed timestamp is within 3600 seconds of the current
time, _automatic_shutters takes the close branch (drives the shutters to
Closed), regardless of configuration, day/night classification,
temperature, luminosity, hour, daylight flag, or current shutter state. -/
theorem hysteresis_forces_close_branch (cfg : Config) (s : ShutterState)
    (last_closed now : ℚ) (daylight hour : Nat) (temp lum : ℚ)
    (h : last_closed > now - 3600) :
    automatic_shutters cfg s last_closed now daylight hour temp lum
      = ShutterState.closed := by
  unfold automatic_shutters
  exact if_pos (Or.inr (Or.inr h))

/-- Witness for hysteresis_forces_close_branch: a concrete daytime
scenario whose only close trigger is the hysteresis test. -/
theorem hysteresis_forces_close_branch_witness :
    (1000 : ℚ) > 1200 - 3600 ∧
    automatic_shutters ⟨7, 19, 100, 0, 30, true⟩ ShutterState.opened
        1000 1200 0 12 20 500 = ShutterState.closed :=
  ⟨by norm_num,
   hysteresis_forces_close_branch _ _ _ _ _ _ _ _ (by norm_num)⟩

/-- C2: the code contradicts the claim: _init_commands builds its
subparser table under the key "set_settings" but every set_settings option
declaration accesses the key "set_setting" (a KeyError), and the File
communicator implements get_cmd while the abstract base requires get_cmds
(so instantiating it raises a TypeError for an abstract class).  This
theorem evaluates both name tables at the failing accesses. -/
theorem init_with_file_communicator_fails :
    set_settings_option_access_key ∉ init_commands_subparser_keys ∧
    "get_cmds" ∈ communicator_abstract_methods ∧
    "get_cmds" ∉ communicator_file_methods := by
  decide

/-- C3 counterexample: with the shutters Open and last_closed = 0, a close
actuation in which the peer sends no response within the timeout (ans =
none) returns normally and DOES update the stored state: the shutter-state
field becomes Closed and the last-closed timestamp becomes now = 1000,
refuting the claim that both remain unchanged. -/
theorem silent_timeout_updates_state_counterexample :
    close_shutters_if_opened ⟨ShutterState.opened, 0⟩ none 1000
      = Except.ok ⟨ShutterState.closed, 1000⟩ ∧
    ShutterState.closed ≠ ShutterState.opened ∧
    (1000 : ℚ) ≠ 0 := by
  refine ⟨rfl, by decide, by norm_num⟩

/-- C3 amended: the close path updates the stored shutter state and the
last-closed timestamp whenever the actuation call returns without raising,
which includes the silent-timeout case (zero expected fields, no peer
response); the state remains unchanged only when ask raises (peer error
line or malformed response). -/
theorem close_actuation_state_update (s : CUState) (now : ℚ)
    (ans : Option String) (hopen : s.shutters_state ≠ ShutterState.closed) :
    (ans = none →
       close_shutters_if_opened s ans now
         = Except.ok ⟨ShutterState.closed, now⟩) ∧
    (∀ k m, (ask true "16" 0 "" ans).1 = AskResult.raised k m →
       close_shutters_if_opened s ans now = Except.error (k, m)) := by
  constructor
  · rintro rfl
    simp [close_shutters_if_opened, hopen, ask]
  · intro k m h
    simp [close_shutters_if_opened, hopen, h]

/-- Witness for close_actuation_state_update: shutters Open, no peer
response, the stored state becomes Closed with the new timestamp. -/
theorem close_actuation_state_update_witness :
    close_shutters_if_opened ⟨ShutterState.opened, 0⟩ none 1000
      = Except.ok ⟨ShutterState.closed, 1000⟩ :=
  (close_actuation_state_update ⟨ShutterState.opened, 0⟩ 1000 none
      (by decide)).1 rfl

/-- C4: ask with 2 expected fields returns the ordered field list on
"21.5;430", raises the peer-error ConnectionError carrying "sensor fault"
on "ERROR;sensor fault", raises TimeoutError when no response arrives; ask
with 0 expected fields tolerates a silent timeout (returns None without
raising). -/
theorem ask_protocol_cases (msg line_ending : String) :
    (ask true msg 2 line_ending (some "21.5;430")).1
       = AskResult.retFields ["21.5", "430"] ∧
    (ask true msg 2 line_ending (some "ERROR;sensor fault")).1
       = AskResult.raised ExcKind.connectionError
           "Arduino returned error : sensor fault" ∧
    ("sensor fault").data.isSuffixOf
        ("Arduino returned error : sensor fault").data = true ∧
    (ask true msg 2 line_ending none).1
       = AskResult.raised ExcKind.timeoutError
           "Arduino didn\x27t return anything in time" ∧
    (ask true msg 0 line_ending none).1 = AskResult.retNone :=
  ⟨rfl, rfl, by decide, rfl, rfl⟩

/-- C5: at hour = sunrise_hour (under the validator-enforced ranges
sunrise_hour ≤ 9 and sunset_hour ≥ 14), _get_day_time returns PLAIN_NIGHT
exactly when luminosity ≤ low_light_threshold and the shutters are Closed,
and PLAIN_DAY in every other case. -/
theorem sunrise_classification (cfg : Config) (s : ShutterState) (lum : ℚ)
    (h9 : cfg.sunrise_hour ≤ 9) (h14 : 14 ≤ cfg.sunset_hour) :
    (get_day_time cfg s cfg.sunrise_hour lum = some DayMoment.plainNight
       ↔ (lum ≤ (cfg.low_light_threshold : ℚ) ∧ s = ShutterState.closed)) ∧
    (¬ (lum ≤ (cfg.low_light_threshold : ℚ) ∧ s = ShutterState.closed) →
       get_day_time cfg s cfg.sunrise_hour lum = some DayMoment.plainDay) := by
  have hc1 : ¬ (cfg.sunrise_hour > cfg.sunset_hour
      ∨ cfg.sunrise_hour < cfg.sunrise_hour) := by omega
  have hc2 : ¬ (cfg.sunset_hour > cfg.sunrise_hour
      ∧ cfg.sunrise_hour > cfg.sunrise_hour) := by omega
  unfold get_day_time
  rw [if_neg hc1, if_neg hc2, if_pos rfl]
  by_cases hc : lum ≤ (cfg.low_light_threshold : ℚ) ∧ s = ShutterState.closed
  · rw [if_pos hc]
    exact ⟨⟨fun _ => hc, fun _ => rfl⟩, fun hn => absurd hc hn⟩
  · rw [if_neg hc]
    exact ⟨⟨fun heq => by simp at heq, fun hcc => absurd hcc hc⟩,
           fun _ => rfl⟩

/-- Witness for sunrise_classification: default configuration, dark
sunrise (lum 50 ≤ 100) with shutters Closed classifies as PLAIN_NIGHT. -/
theorem sunrise_classification_witness :
    get_day_time ⟨7, 19, 100, 0, 30, true⟩ ShutterState.closed 7 50
      = some DayMoment.plainNight :=
  (sunrise_classification ⟨7, 19, 100, 0, 30, true⟩ ShutterState.closed 50
      (by norm_num) (by norm_num)).1.mpr ⟨by norm_num, rfl⟩

/-- C6: when the classification is PLAIN_DAY, environment adaptation is
enabled, the temperature exceeds high_temp_threshold, the hour is within 4
of 13 + daylight, and the last close is older than 3600 seconds,
_automatic_shutters drives the shutters to Closed. -/
theorem hot_midday_forces_closed (cfg : Config) (s : ShutterState)
    (last_closed now : ℚ) (daylight hour : Nat) (temp lum : ℚ)
    (hday : get_day_time cfg s hour lum = some DayMoment.plainDay)
    (hadapt : cfg.adapt_with_env_in_plain_day = true)
    (hhot : temp > (cfg.high_temp_threshold : ℚ))
    (hmid : |(hour : ℤ) - (13 + (daylight : ℤ))| ≤ 4)
    (hold : last_closed < now - 3600) :
    automatic_shutters cfg s last_closed now daylight hour temp lum
      = ShutterState.closed := by
  unfold automatic_shutters
  exact if_pos (Or.inr (Or.inl ⟨hadapt, Or.inr ⟨hhot, hmid⟩⟩))

/-- Witness for hot_midday_forces_closed: exactly the spec scenario —
config {sunrise 7, sunset 19, low_light 100, low_temp 0, high_temp 30,
adapt true}, hour 12, temp 35, lum 500, shutters Open, last_closed 0 (now
10000, daylight 0) — targets Closed. -/
theorem hot_midday_forces_closed_witness :
    automatic_shutters ⟨7, 19, 100, 0, 30, true⟩ ShutterState.opened
        0 10000 0 12 35 500 = ShutterState.closed :=
  hot_midday_forces_closed _ _ _ _ _ _ _ _ rfl rfl (by norm_num)
    (by decide) (by norm_num)

/-- C7: the code contradicts the round-trip claim: parse_command
dispatches the registered command "get_setting" to the method name
"_cmd_get_setting", which is not among the command handlers defined on
CentralUnit (the handler is named _cmd_log_setting), and the set_settings
options are declared against the missing subparser key "set_setting", so
the command pair cannot execute.  This theorem evaluates the dispatch at
the failing command. -/
theorem get_setting_dispatch_missing :
    "get_setting" ∈ registered_command_names ∧
    parse_command_dispatch_name "get_setting" = "_cmd_get_setting" ∧
    "_cmd_get_setting" ∉ cmd_method_names ∧
    "_cmd_log_setting" ∈ cmd_method_names := by
  decide

/-- C8: given a non-negative luminosity, _check_luminosity_and_temp raises
a ValueError exactly when the parsed temperature lies inside the plausible
range -40 ≤ t ≤ 60, and accepts (returns the pair for) every temperature
outside that range: the sanity check is inverted. -/
theorem temp_check_inverted (temp lum : ℚ) (h : 0 ≤ lum) :
    ((∃ m, check_luminosity_and_temp temp lum = Except.error m) ↔
       (-40 ≤ temp ∧ temp ≤ 60)) ∧
    (¬ (-40 ≤ temp ∧ temp ≤ 60) →
       check_luminosity_and_temp temp lum = Except.ok (temp, lum)) := by
  unfold check_luminosity_and_temp
  by_cases hc : (-40 : ℚ) ≤ temp ∧ temp ≤ 60
  · rw [if_pos hc]
    exact ⟨⟨fun _ => hc, fun _ => ⟨_, rfl⟩⟩, fun hn => absurd hc hn⟩
  · rw [if_neg hc, if_neg (not_lt.mpr h)]
    exact ⟨⟨fun hm => by obtain ⟨m, hm⟩ := hm; simp at hm,
            fun hcc => absurd hcc hc⟩, fun _ => rfl⟩

/-- Witness for temp_check_inverted: temperature 100 (outside the
plausible range) with luminosity 50 is accepted. -/
theorem temp_check_inverted_witness :
    (0 : ℚ) ≤ 50 ∧
    check_luminosity_and_temp 100 50 = Except.ok (100, 50) :=
  ⟨by norm_num, (temp_check_inverted 100 50 (by norm_num)).2 (by norm_num)⟩

/-- C9: the code contradicts the claim: the hysteresis test in
_automatic_shutters reads the attribute "_last_closed", the same name the
close path writes, but _init_attributes initializes the name-mangled
attribute "_CentralUnit__last_closed" instead, so the first automatic
cycle before any close actuation reads an attribute that does not exist
(AttributeError). -/
theorem last_closed_attribute_mismatch :
    automatic_shutters_last_closed_read = close_shutters_last_closed_write ∧
    automatic_shutters_last_closed_read ∉ init_attributes_names := by
  decide

/-- C10: ask on a link constructed with programmed_for_as = False writes
nothing to the transport and returns a NotImplementedError instance as its
normal result value (it does not raise), for every message, expected field
count, line ending and peer response. -/
theorem ask_incompatible_returns_not_implemented (msg line_ending : String)
    (data_num_expected : Nat) (ans : Option String) :
    ask false msg data_num_expected line_ending ans
      = (AskResult.retNotImplemented
           "Arduino isn\x27t compatible with AS\x27s special methods.", []) :=
  rfl

end VoletRoulant
